import Mathlib

/-!
Shallow embedding of the mcp-house-rules MCP server (src/index.ts).

The server exposes one prompt (house_rules) and one tool (git_context).
Raw request arguments are modelled as association lists of JS-like values;
the zod schema for git_context, the prompt handler, and the tool handler
(with its four sequential external git invocations) are translated
faithfully.  External process execution is modelled by an environment
function from invocations to outcomes; the tool handler additionally
returns the ordered list of invocations it actually performed, so that
claims about which processes run (and in which order) are statable.
-/

namespace McpHouseRules

/-- A JavaScript-like runtime value appearing in a raw argument bag.
Numbers are modelled as rationals (enough to express the integrality
check performed by the zod schema). -/
inductive JSValue where
  | vStr (s : String)
  | vNum (q : Rat)
  | vBool (b : Bool)
  | vNull
  deriving DecidableEq, Repr

/-- A raw, untyped argument bag: ordered key/value pairs with unique keys. -/
abbrev RawArgs := List (String × JSValue)

/-- Key lookup in a raw argument bag (first match wins). -/
def argLookup (bag : RawArgs) (k : String) : Option JSValue :=
  match bag with
  | [] => none
  | (k', v) :: rest => if k' = k then some v else argLookup rest k

/-- Is this value a JS string?  Mirrors a `typeof x === "string"` test. -/
def JSValue.isStr : JSValue → Bool
  | .vStr _ => true
  | _ => false

/-! ## Prompt side: the house_rules handler (index.ts lines 53-89) -/

/-- Mode extraction from the get-prompt arguments:
`typeof request.params.arguments?.mode === "string" ? ... : "general"`. -/
def housePromptMode (bag : RawArgs) : String :=
  match argLookup bag "mode" with
  | some (.vStr s) => s
  | _ => "general"

/-- The lines of the house_rules prompt text, before joining with
newlines (the `text` array literal in the source). -/
def houseRulesLines (mode : String) : List String :=
  [ "You are my coding assistant.",
    "",
    "Operating rules:",
    "1) Prefer safe and reversible actions. Start read-only.",
    "2) Summarize what you plan to do before you do it.",
    "3) Keep scope small. If a task is large, propose the smallest next step.",
    "4) Be explicit. Use checklists and concrete commands.",
    "5) If you are blocked, ask one clarifying question. Otherwise proceed.",
    "",
    "Mode: " ++ mode,
    "",
    "When using tools:",
    "- Explain which tool you are calling and why.",
    "- If a tool can mutate data, confirm intent first." ]

/-- The house_rules prompt text (`[...].join("\n")`). -/
def houseRulesText (mode : String) : String :=
  String.intercalate "\n" (houseRulesLines mode)

/-- Result of a get-prompt request: either prompt content or the thrown
"Unknown prompt" error. -/
inductive PromptResult where
  | content (text : String)
  | unknownPrompt (name : String)
  deriving DecidableEq, Repr

/-- The GetPromptRequestSchema handler: reject unknown prompt names,
otherwise build the house_rules text with the extracted mode. -/
def getPrompt (name : String) (bag : RawArgs) : PromptResult :=
  if name = "house_rules" then
    .content (houseRulesText (housePromptMode bag))
  else
    .unknownPrompt name

/-! ## Tool side: the zod schema GitContextSchema (index.ts lines 92-95) -/

/-- Arguments of git_context after successful zod validation. -/
structure GitContextArgs where
  repoPath : String
  maxCommits : Int
  deriving DecidableEq, Repr

/-- A zod validation failure (the parse call throws). -/
inductive ZodError where
  | missingField (field : String)
  | typeMismatch (field : String)
  deriving DecidableEq, Repr

/-- `GitContextSchema.parse`: repoPath must be a string of length ≥ 1;
maxCommits, when present, must be an integer number in [1,50], and
defaults to 15 when absent.  Unknown keys are ignored (zod objects strip
unrecognized keys). -/
def zodParseGitContext (raw : RawArgs) : Except ZodError GitContextArgs :=
  match argLookup raw "repoPath" with
  | none => .error (.missingField "repoPath")
  | some (.vStr p) =>
    if p.length < 1 then
      .error (.typeMismatch "repoPath")
    else
      match argLookup raw "maxCommits" with
      | none => .ok ⟨p, 15⟩
      | some (.vNum q) =>
        if q.den = 1 ∧ 1 ≤ q ∧ q ≤ 50 then
          .ok ⟨p, q.num⟩
        else
          .error (.typeMismatch "maxCommits")
      | some _ => .error (.typeMismatch "maxCommits")
  | some _ => .error (.typeMismatch "repoPath")

/-- Does a JS value satisfy the maxCommits constraint
(`z.number().int().min(1).max(50)`)? -/
def validMaxCommits (v : JSValue) : Bool :=
  match v with
  | .vNum q => if q.den = 1 ∧ 1 ≤ q ∧ q ≤ 50 then true else false
  | _ => false

/-! ## JS string operations

`String.trim` and `String.splitOn` in the Lean core library are defined
by well-founded recursion on byte positions; the JS operations used by
the source (`.trim()`, `.split("\n")`) are modelled here by structurally
recursive functions on the character list, with the same behavior on the
inputs that matter (ASCII process output). -/

/-- JS `s.trim()`: strip leading and trailing whitespace. -/
def jsTrim (s : String) : String :=
  ⟨((s.data.dropWhile Char.isWhitespace).reverse.dropWhile
      Char.isWhitespace).reverse⟩

/-- JS `s.split("\n")`: split at newline characters; like the JS
operation, an empty string yields `[""]` and separators at the ends
yield empty fragments. -/
def jsLines (s : String) : List String :=
  (s.data.splitOn '\n').map (fun cs => ⟨cs⟩)

/-! ## External process model -/

/-- One external process invocation: a command and a discrete ordered
argument list (execFile semantics: no shell, no string assembly). -/
structure GitInvocation where
  cmd : String
  args : List String
  deriving DecidableEq, Repr

/-- Outcome of one execFileAsync call: the promise either resolves with
captured stdout/stderr, or rejects (non-zero exit or launch failure). -/
inductive ExecResult where
  | success (stdout : String) (stderr : String)
  | failure (err : String)
  deriving DecidableEq, Repr

/-- An execution environment: what each possible invocation would
produce.  A fixed environment models an unchanged repository. -/
abbrev ExecEnv := GitInvocation → ExecResult

/-- `git -C <repoPath> rev-parse --is-inside-work-tree` (the probe). -/
def probeInvocation (repoPath : String) : GitInvocation :=
  ⟨"git", ["-C", repoPath, "rev-parse", "--is-inside-work-tree"]⟩

/-- `git -C <repoPath> rev-parse --abbrev-ref HEAD` (branch name). -/
def branchInvocation (repoPath : String) : GitInvocation :=
  ⟨"git", ["-C", repoPath, "rev-parse", "--abbrev-ref", "HEAD"]⟩

/-- `git -C <repoPath> log -n <maxCommits> --pretty=format:%h %s`. -/
def logInvocation (repoPath : String) (maxCommits : Int) : GitInvocation :=
  ⟨"git", ["-C", repoPath, "log", "-n", toString maxCommits,
           "--pretty=format:%h %s"]⟩

/-- `git -C <repoPath> show --stat --oneline -1` (latest diffstat). -/
def showInvocation (repoPath : String) : GitInvocation :=
  ⟨"git", ["-C", repoPath, "show", "--stat", "--oneline", "-1"]⟩

/-- The probe computation: `.then(r => r.stdout.trim() === "true")
.catch(() => false)` — a rejected probe and a non-"true" answer are both
treated as "not a repository". -/
def probeSaysRepo (env : ExecEnv) (repoPath : String) : Bool :=
  match env (probeInvocation repoPath) with
  | .success out _ => jsTrim out == "true"
  | .failure _ => false

/-! ## The git_context tool handler (index.ts lines 121-194) -/

/-- What the tool handler produces: content, or an uncaught exception
that propagates to the dispatcher. -/
inductive ToolOutcome where
  | content (text : String)
  | thrown (err : String)
  deriving DecidableEq, Repr

/-- The bulleted commit list:
`commits ? commits.split("\n").map(l => "- " + l).join("\n") : "- None"`. -/
def bulletList (commits : String) : String :=
  if commits = "" then "- None"
  else String.intercalate "\n" ((jsLines commits).map (fun l => "- " ++ l))

/-- The assembled payload text (the `payload` array joined with "\n"). -/
def assemblePayload (branch commits diffstat : String) : String :=
  String.intercalate "\n"
    [ "# Repo Context",
      "- Branch: " ++ branch,
      "",
      "## Recent commits",
      bulletList commits,
      "",
      "## Latest commit diffstat",
      "```",
      diffstat,
      "```" ]

/-- The git_context handler body on validated arguments.  Returns the
outcome together with the ordered list of invocations actually
performed.  Mirrors the source: probe first; a negative or failed probe
short-circuits to a soft content result; otherwise branch, log and show
run in sequence, each rejection propagating as a thrown error. -/
def gitContextHandler (env : ExecEnv) (a : GitContextArgs) :
    ToolOutcome × List GitInvocation :=
  if probeSaysRepo env a.repoPath then
    match env (branchInvocation a.repoPath) with
    | .failure e =>
      (.thrown e, [probeInvocation a.repoPath, branchInvocation a.repoPath])
    | .success bOut _ =>
      match env (logInvocation a.repoPath a.maxCommits) with
      | .failure e =>
        (.thrown e, [probeInvocation a.repoPath, branchInvocation a.repoPath,
                     logInvocation a.repoPath a.maxCommits])
      | .success cOut _ =>
        match env (showInvocation a.repoPath) with
        | .failure e =>
          (.thrown e, [probeInvocation a.repoPath, branchInvocation a.repoPath,
                       logInvocation a.repoPath a.maxCommits,
                       showInvocation a.repoPath])
        | .success dOut _ =>
          (.content (assemblePayload (jsTrim bOut) (jsTrim cOut) (jsTrim dOut)),
           [probeInvocation a.repoPath, branchInvocation a.repoPath,
            logInvocation a.repoPath a.maxCommits, showInvocation a.repoPath])
  else
    (.content ("Not a git repository: " ++ a.repoPath),
     [probeInvocation a.repoPath])

/-- What the dispatcher sees for a call-tool("git_context") request:
a content frame, a validation error (zod parse threw before any
invocation), or a dispatch-level error (handler threw). -/
inductive CallToolResult where
  | contentFrame (text : String)
  | validationError (e : ZodError)
  | dispatchError (err : String)
  deriving DecidableEq, Repr

/-- Is this result a validation error frame? -/
def CallToolResult.isValidationError : CallToolResult → Bool
  | .validationError _ => true
  | _ => false

/-- The full call-tool("git_context") pipeline: validate, then run the
handler; also reports the ordered invocations performed (empty when
validation fails, since parse happens before any process starts). -/
def callToolGitContext (env : ExecEnv) (raw : RawArgs) :
    CallToolResult × List GitInvocation :=
  match zodParseGitContext raw with
  | .error e => (.validationError e, [])
  | .ok a =>
    match gitContextHandler env a with
    | (.content t, invs) => (.contentFrame t, invs)
    | (.thrown e, invs) => (.dispatchError e, invs)

/-! ## Concrete environments used to exercise the theorems -/

/-- An environment where /repo is a healthy repository: the probe
answers "true" and branch, log and show all succeed. -/
def envAllGood : ExecEnv := fun inv =>
  if inv = probeInvocation "/repo" then .success "true\n" ""
  else if inv = branchInvocation "/repo" then .success "main\n" ""
  else if inv = logInvocation "/repo" 15 then
    .success "1a2b3c4 first change\n5d6e7f8 second change" ""
  else if inv = showInvocation "/repo" then
    .success "1a2b3c4 first change\n notes.txt | 2 +-\n" ""
  else .failure "unexpected invocation"

/-- An environment where every git invocation rejects (e.g. the path is
not a repository, or git is missing). -/
def envNotRepo : ExecEnv := fun _ =>
  .failure "fatal: not a git repository"

/-- An environment where the probe succeeds but every later invocation
rejects. -/
def envBranchFails : ExecEnv := fun inv =>
  if inv = probeInvocation "/repo" then .success "true\n" ""
  else .failure "git exited with code 128"

/-- The canonical keys of the git_context schema. -/
def knownKeysOnly (raw : RawArgs) : RawArgs :=
  raw.filter (fun kv => kv.1 == "repoPath" || kv.1 == "maxCommits")

/-- Looking up a schema key is unaffected by dropping the unknown keys. -/
theorem argLookup_knownKeysOnly (raw : RawArgs) (k : String)
    (hk : k = "repoPath" ∨ k = "maxCommits") :
    argLookup (knownKeysOnly raw) k = argLookup raw k := by
  induction raw with
  | nil => rfl
  | cons kv rest ih =>
    obtain ⟨k', v⟩ := kv
    by_cases hkk : k' = k
    · subst hkk
      have hknown : (k' == "repoPath" || k' == "maxCommits") = true := by
        rcases hk with rfl | rfl <;> simp
      simp [knownKeysOnly, List.filter_cons, hknown, argLookup]
    · by_cases hknown : (k' == "repoPath" || k' == "maxCommits") = true
      · simpa [knownKeysOnly, List.filter_cons, hknown, argLookup, hkk]
          using ih
      · simpa [knownKeysOnly, List.filter_cons, hknown, argLookup, hkk]
          using ih

/-- Claim C4: a get-prompt("house_rules") request with an empty argument
bag yields content containing the line "Mode: general"; with mode bound
to "review" it contains "Mode: review"; and any string value of mode is
substituted verbatim into the "Mode: " line of the prompt. -/
theorem housePrompt_mode_substitution :
    (getPrompt "house_rules" [] = .content (houseRulesText "general")
      ∧ "Mode: general" ∈ jsLines (houseRulesText "general"))
  ∧ (getPrompt "house_rules" [("mode", .vStr "review")]
        = .content (houseRulesText "review")
      ∧ "Mode: review" ∈ jsLines (houseRulesText "review"))
  ∧ (∀ bag s, argLookup bag "mode" = some (.vStr s) →
      housePromptMode bag = s
        ∧ getPrompt "house_rules" bag = .content (houseRulesText s)
        ∧ ("Mode: " ++ s) ∈ houseRulesLines s) := by
  refine ⟨⟨rfl, by decide⟩, ⟨rfl, by decide⟩, ?_⟩
  intro bag s h
  have hm : housePromptMode bag = s := by
    unfold housePromptMode
    rw [h]
  refine ⟨hm, ?_, ?_⟩
  · unfold getPrompt
    rw [hm]
    simp
  · simp [houseRulesLines]

/-- Witness for C4 at the concrete bag binding mode to "triage". -/
theorem housePrompt_mode_substitution_witness :
    housePromptMode [("mode", .vStr "triage")] = "triage"
      ∧ getPrompt "house_rules" [("mode", .vStr "triage")]
          = .content (houseRulesText "triage")
      ∧ ("Mode: " ++ "triage") ∈ houseRulesLines "triage" :=
  housePrompt_mode_substitution.2.2 [("mode", .vStr "triage")] "triage" rfl

/-- Claim C9: a get-prompt("house_rules") request whose mode argument is
present but not a string is not rejected: the handler silently falls
back to "general" and returns ordinary content with the line
"Mode: general". -/
theorem housePrompt_nonstring_mode_general (bag : RawArgs) (v : JSValue)
    (hv : argLookup bag "mode" = some v) (hns : v.isStr = false) :
    getPrompt "house_rules" bag = .content (houseRulesText "general")
      ∧ "Mode: general" ∈ houseRulesLines "general" := by
  have hm : housePromptMode bag = "general" := by
    unfold housePromptMode
    rw [hv]
    cases v with
    | vStr s => simp [JSValue.isStr] at hns
    | vNum q => rfl
    | vBool b => rfl
    | vNull => rfl
  refine ⟨?_, by simp [houseRulesLines]⟩
  unfold getPrompt
  rw [hm]
  simp

/-- Witness for C9 at a bag binding mode to the number 3. -/
theorem housePrompt_nonstring_mode_general_witness :
    getPrompt "house_rules" [("mode", .vNum 3)]
        = .content (houseRulesText "general")
      ∧ "Mode: general" ∈ houseRulesLines "general" :=
  housePrompt_nonstring_mode_general [("mode", .vNum 3)] (.vNum 3) rfl rfl

/-- Claim C10: an empty repoPath string is rejected by validation before
any external process invocation occurs (the invocation list is empty). -/
theorem gitContext_empty_repoPath_rejected (env : ExecEnv) (raw : RawArgs)
    (h : argLookup raw "repoPath" = some (.vStr "")) :
    callToolGitContext env raw
      = (.validationError (.typeMismatch "repoPath"), []) := by
  unfold callToolGitContext zodParseGitContext
  rw [h]
  rfl

/-- Witness for C10 at the concrete bag with an empty repoPath. -/
theorem gitContext_empty_repoPath_rejected_witness :
    callToolGitContext envAllGood [("repoPath", .vStr "")]
      = (.validationError (.typeMismatch "repoPath"), []) :=
  gitContext_empty_repoPath_rejected envAllGood [("repoPath", .vStr "")] rfl

/-- Claim C7: unrecognized extra keys in the argument bag are ignored:
the whole call-tool("git_context") pipeline behaves exactly as on the
same bag with the extra keys removed. -/
theorem gitContext_extra_keys_ignored (env : ExecEnv) (raw : RawArgs) :
    callToolGitContext env raw = callToolGitContext env (knownKeysOnly raw) := by
  have h1 := argLookup_knownKeysOnly raw "repoPath" (Or.inl rfl)
  have h2 := argLookup_knownKeysOnly raw "maxCommits" (Or.inr rfl)
  unfold callToolGitContext zodParseGitContext
  rw [h1, h2]

/-- Claim C8: the handler introduces no per-call nondeterminism: two
calls during which every external invocation yields the same outcome
return identical results. -/
theorem gitContext_deterministic (env1 env2 : ExecEnv) (raw : RawArgs)
    (h : ∀ inv, env1 inv = env2 inv) :
    callToolGitContext env1 raw = callToolGitContext env2 raw := by
  have he : env1 = env2 := funext h
  rw [he]

/-- Witness for C8: two consecutive calls against the unchanged /repo
environment. -/
theorem gitContext_deterministic_witness :
    callToolGitContext envAllGood [("repoPath", .vStr "/repo")]
      = callToolGitContext envAllGood [("repoPath", .vStr "/repo")] :=
  gitContext_deterministic envAllGood envAllGood
    [("repoPath", .vStr "/repo")] (fun _ => rfl)

/-- Claim C1: when the probe either rejects or answers anything other
than a positive work-tree answer, the call returns an ordinary content
frame stating the path is not a git repository, and only the probe
(none of branch, log, show) was executed. -/
theorem gitContext_nonrepo_soft (env : ExecEnv) (raw : RawArgs)
    (a : GitContextArgs)
    (hparse : zodParseGitContext raw = .ok a)
    (hprobe : probeSaysRepo env a.repoPath = false) :
    callToolGitContext env raw
      = (.contentFrame ("Not a git repository: " ++ a.repoPath),
         [probeInvocation a.repoPath]) := by
  unfold callToolGitContext
  rw [hparse]
  simp [gitContextHandler, hprobe]

/-- Witness for C1: calling on a path where every git invocation
rejects yields the soft content frame after the probe alone. -/
theorem gitContext_nonrepo_soft_witness :
    callToolGitContext envNotRepo [("repoPath", .vStr "/tmp/not-a-repo")]
      = (.contentFrame ("Not a git repository: " ++ "/tmp/not-a-repo"),
         [probeInvocation "/tmp/not-a-repo"]) :=
  gitContext_nonrepo_soft envNotRepo [("repoPath", .vStr "/tmp/not-a-repo")]
    ⟨"/tmp/not-a-repo", 15⟩ rfl rfl

/-- A maxCommits value failing the schema constraint makes the whole
parse fail, whatever the rest of the bag holds. -/
theorem zodParse_maxCommits_invalid (raw : RawArgs) (v : JSValue)
    (hv : argLookup raw "maxCommits" = some v)
    (hbad : validMaxCommits v = false) :
    ∃ e, zodParseGitContext raw = .error e := by
  unfold zodParseGitContext
  rcases hr : argLookup raw "repoPath" with _ | val
  · exact ⟨_, rfl⟩
  · cases val with
    | vStr p =>
      dsimp only
      by_cases hlen : p.length < 1
      · rw [if_pos hlen]
        exact ⟨_, rfl⟩
      · rw [if_neg hlen, hv]
        cases v with
        | vNum q =>
          have hc : ¬ (q.den = 1 ∧ 1 ≤ q ∧ q ≤ 50) := by
            intro hc
            simp [validMaxCommits, hc] at hbad
          dsimp only
          rw [if_neg hc]
          exact ⟨_, rfl⟩
        | vStr s => exact ⟨_, rfl⟩
        | vBool b => exact ⟨_, rfl⟩
        | vNull => exact ⟨_, rfl⟩
    | vNum q => exact ⟨_, rfl⟩
    | vBool b => exact ⟨_, rfl⟩
    | vNull => exact ⟨_, rfl⟩

/-- Claim C2: an out-of-constraint maxCommits (0, 51, a non-integer, or
any value outside the schema) is rejected as a validation error with no
git process started; an absent maxCommits is defaulted to 15, and 15 is
what the commit-listing invocation carries (as the string "15"),
that invocation being performed once the probe and branch steps pass. -/
theorem gitContext_maxCommits_validation (env : ExecEnv) (raw : RawArgs) :
    (∀ v, argLookup raw "maxCommits" = some v → validMaxCommits v = false →
      (callToolGitContext env raw).1.isValidationError = true
        ∧ (callToolGitContext env raw).2 = [])
  ∧ (∀ p, argLookup raw "repoPath" = some (.vStr p) →
      argLookup raw "maxCommits" = none → p ≠ "" →
      zodParseGitContext raw = .ok ⟨p, 15⟩
        ∧ (logInvocation p 15).args
            = ["-C", p, "log", "-n", "15", "--pretty=format:%h %s"]
        ∧ (∀ bo be, probeSaysRepo env p = true →
            env (branchInvocation p) = .success bo be →
            logInvocation p 15 ∈ (gitContextHandler env ⟨p, 15⟩).2)) := by
  constructor
  · intro v hv hbad
    obtain ⟨e, he⟩ := zodParse_maxCommits_invalid raw v hv hbad
    unfold callToolGitContext
    rw [he]
    exact ⟨rfl, rfl⟩
  · intro p hp hnone hne
    have hlen : ¬ p.length < 1 := by
      intro hl
      have h0 : p.data.length = 0 := Nat.lt_one_iff.mp hl
      exact hne (String.ext (List.length_eq_zero.mp h0))
    refine ⟨?_, rfl, ?_⟩
    · unfold zodParseGitContext
      rw [hp]
      dsimp only
      rw [if_neg hlen, hnone]
    · intro bo be hpr hbr
      cases hl : env (logInvocation p 15) with
      | success co ce =>
        cases hs : env (showInvocation p) with
        | success d1 d2 => simp [gitContextHandler, hpr, hbr, hl, hs]
        | failure es => simp [gitContextHandler, hpr, hbr, hl, hs]
      | failure el => simp [gitContextHandler, hpr, hbr, hl]

/-- Witness for C2: maxCommits 0 is rejected with no invocation run,
and a bag without maxCommits parses to the default 15, which reaches
the commit-listing invocation against the healthy /repo environment. -/
theorem gitContext_maxCommits_validation_witness :
    ((callToolGitContext envAllGood
        [("repoPath", .vStr "/repo"),
         ("maxCommits", .vNum 0)]).1.isValidationError = true
      ∧ (callToolGitContext envAllGood
          [("repoPath", .vStr "/repo"), ("maxCommits", .vNum 0)]).2 = [])
  ∧ (zodParseGitContext [("repoPath", .vStr "/repo")] = .ok ⟨"/repo", 15⟩
      ∧ (logInvocation "/repo" 15).args
          = ["-C", "/repo", "log", "-n", "15", "--pretty=format:%h %s"]
      ∧ logInvocation "/repo" 15
          ∈ (gitContextHandler envAllGood ⟨"/repo", 15⟩).2) := by
  have h1 := (gitContext_maxCommits_validation envAllGood
    [("repoPath", .vStr "/repo"), ("maxCommits", .vNum 0)]).1
    (.vNum 0) rfl (by decide)
  have h2 := (gitContext_maxCommits_validation envAllGood
    [("repoPath", .vStr "/repo")]).2 "/repo" rfl rfl (by decide)
  exact ⟨h1, h2.1, h2.2.1, h2.2.2 "main\n" "" rfl rfl⟩

/-- Claim C3: once the probe has confirmed the path, a rejection of any
of the three follow-up invocations (branch, log, show) is not caught in
the handler: it surfaces at the dispatcher boundary as a dispatch-level
error, never as a content frame. -/
theorem gitContext_step2_failure_propagates (env : ExecEnv) (raw : RawArgs)
    (a : GitContextArgs) (e : String)
    (hparse : zodParseGitContext raw = .ok a)
    (hprobe : probeSaysRepo env a.repoPath = true) :
    (env (branchInvocation a.repoPath) = .failure e →
       callToolGitContext env raw = (.dispatchError e,
         [probeInvocation a.repoPath, branchInvocation a.repoPath]))
  ∧ (∀ bo be, env (branchInvocation a.repoPath) = .success bo be →
       env (logInvocation a.repoPath a.maxCommits) = .failure e →
       callToolGitContext env raw = (.dispatchError e,
         [probeInvocation a.repoPath, branchInvocation a.repoPath,
          logInvocation a.repoPath a.maxCommits]))
  ∧ (∀ bo be co ce, env (branchInvocation a.repoPath) = .success bo be →
       env (logInvocation a.repoPath a.maxCommits) = .success co ce →
       env (showInvocation a.repoPath) = .failure e →
       callToolGitContext env raw = (.dispatchError e,
         [probeInvocation a.repoPath, branchInvocation a.repoPath,
          logInvocation a.repoPath a.maxCommits,
          showInvocation a.repoPath])) := by
  refine ⟨?_, ?_, ?_⟩
  · intro hb
    unfold callToolGitContext
    rw [hparse]
    simp [gitContextHandler, hprobe, hb]
  · intro bo be hb hl
    unfold callToolGitContext
    rw [hparse]
    simp [gitContextHandler, hprobe, hb, hl]
  · intro bo be co ce hb hl hs
    unfold callToolGitContext
    rw [hparse]
    simp [gitContextHandler, hprobe, hb, hl, hs]

/-- Witness for C3: against an environment where the probe passes and
the branch invocation rejects, the call surfaces a dispatch error. -/
theorem gitContext_step2_failure_propagates_witness :
    callToolGitContext envBranchFails [("repoPath", .vStr "/repo")]
      = (.dispatchError "git exited with code 128",
         [probeInvocation "/repo", branchInvocation "/repo"]) :=
  (gitContext_step2_failure_propagates envBranchFails
    [("repoPath", .vStr "/repo")] ⟨"/repo", 15⟩
    "git exited with code 128" rfl (by decide)).1 (by decide)

/-- Every invocation the handler performs is one of the four fixed
invocation forms for the validated repoPath and maxCommits. -/
theorem gitContextHandler_perf_mem (env : ExecEnv) (a : GitContextArgs)
    (inv : GitInvocation) (hmem : inv ∈ (gitContextHandler env a).2) :
    inv = probeInvocation a.repoPath
      ∨ inv = branchInvocation a.repoPath
      ∨ inv = logInvocation a.repoPath a.maxCommits
      ∨ inv = showInvocation a.repoPath := by
  by_cases hp : probeSaysRepo env a.repoPath = true
  · simp only [gitContextHandler, hp, if_true] at hmem
    rcases hb : env (branchInvocation a.repoPath) with ⟨bo, be⟩ | eb
    · rw [hb] at hmem
      rcases hl : env (logInvocation a.repoPath a.maxCommits) with ⟨co, ce⟩ | el
      · rw [hl] at hmem
        rcases hs : env (showInvocation a.repoPath) with ⟨d1, d2⟩ | es
        · rw [hs] at hmem
          simp at hmem
          tauto
        · rw [hs] at hmem
          simp at hmem
          tauto
      · rw [hl] at hmem
        simp at hmem
        tauto
    · rw [hb] at hmem
      simp at hmem
      tauto
  · simp only [gitContextHandler, if_neg hp] at hmem
    simp at hmem
    tauto

/-- Claim C5: every external invocation the git_context handler performs
is a discrete (command, ordered argument list) pair in which repoPath is
a single list element (position 1, right after "-C"), one of the four
fixed argument-list shapes; no shell command string is ever assembled,
for any repoPath including ones with spaces or shell metacharacters. -/
theorem gitContext_discrete_arguments (env : ExecEnv) (a : GitContextArgs)
    (inv : GitInvocation) (hmem : inv ∈ (gitContextHandler env a).2) :
    inv.cmd = "git"
      ∧ inv.args.get? 1 = some a.repoPath
      ∧ (inv.args = ["-C", a.repoPath, "rev-parse", "--is-inside-work-tree"]
        ∨ inv.args = ["-C", a.repoPath, "rev-parse", "--abbrev-ref", "HEAD"]
        ∨ inv.args = ["-C", a.repoPath, "log", "-n", toString a.maxCommits,
            "--pretty=format:%h %s"]
        ∨ inv.args = ["-C", a.repoPath, "show", "--stat", "--oneline", "-1"]) := by
  rcases gitContextHandler_perf_mem env a inv hmem with rfl | rfl | rfl | rfl
  · exact ⟨rfl, rfl, Or.inl rfl⟩
  · exact ⟨rfl, rfl, Or.inr (Or.inl rfl)⟩
  · exact ⟨rfl, rfl, Or.inr (Or.inr (Or.inl rfl))⟩
  · exact ⟨rfl, rfl, Or.inr (Or.inr (Or.inr rfl))⟩

/-- Witness for C5 at a repoPath containing spaces and shell
metacharacters: the probe invocation performed for it carries the whole
path as one argument. -/
theorem gitContext_discrete_arguments_witness :
    (probeInvocation "/tmp/has space; rm -rf $HOME").cmd = "git"
      ∧ (probeInvocation "/tmp/has space; rm -rf $HOME").args.get? 1
          = some "/tmp/has space; rm -rf $HOME"
      ∧ ((probeInvocation "/tmp/has space; rm -rf $HOME").args
            = ["-C", "/tmp/has space; rm -rf $HOME", "rev-parse",
               "--is-inside-work-tree"]
        ∨ (probeInvocation "/tmp/has space; rm -rf $HOME").args
            = ["-C", "/tmp/has space; rm -rf $HOME", "rev-parse",
               "--abbrev-ref", "HEAD"]
        ∨ (probeInvocation "/tmp/has space; rm -rf $HOME").args
            = ["-C", "/tmp/has space; rm -rf $HOME", "log", "-n",
               toString (15 : Int), "--pretty=format:%h %s"]
        ∨ (probeInvocation "/tmp/has space; rm -rf $HOME").args
            = ["-C", "/tmp/has space; rm -rf $HOME", "show", "--stat",
               "--oneline", "-1"]) :=
  gitContext_discrete_arguments envNotRepo
    ⟨"/tmp/has space; rm -rf $HOME", 15⟩
    (probeInvocation "/tmp/has space; rm -rf $HOME") (by decide)

/-- Claim C6: a successful run returns a single text block that
concatenates, in order: the header, a branch line from the trimmed
branch output, one "- "-prefixed bullet per line of the trimmed commit
output (or "- None" when it is empty), and the trimmed diffstat fenced
between two "```" lines. -/
theorem gitContext_payload_format (env : ExecEnv) (raw : RawArgs)
    (a : GitContextArgs) (bOut bErr cOut cErr dOut dErr : String)
    (hparse : zodParseGitContext raw = .ok a)
    (hprobe : probeSaysRepo env a.repoPath = true)
    (hb : env (branchInvocation a.repoPath) = .success bOut bErr)
    (hl : env (logInvocation a.repoPath a.maxCommits) = .success cOut cErr)
    (hs : env (showInvocation a.repoPath) = .success dOut dErr) :
    callToolGitContext env raw
      = (.contentFrame (String.intercalate "\n"
          [ "# Repo Context",
            "- Branch: " ++ jsTrim bOut,
            "",
            "## Recent commits",
            if jsTrim cOut = "" then "- None"
            else String.intercalate "\n"
              ((jsLines (jsTrim cOut)).map (fun l => "- " ++ l)),
            "",
            "## Latest commit diffstat",
            "```",
            jsTrim dOut,
            "```" ]),
         [probeInvocation a.repoPath, branchInvocation a.repoPath,
          logInvocation a.repoPath a.maxCommits,
          showInvocation a.repoPath]) := by
  unfold callToolGitContext
  rw [hparse]
  simp [gitContextHandler, hprobe, hb, hl, hs, assemblePayload, bulletList]

/-- Witness for C6 against the healthy /repo environment: two commits
become two bullets and the diffstat sits between the fences. -/
theorem gitContext_payload_format_witness :
    callToolGitContext envAllGood [("repoPath", .vStr "/repo")]
      = (.contentFrame (String.intercalate "\n"
          [ "# Repo Context",
            "- Branch: " ++ jsTrim "main\n",
            "",
            "## Recent commits",
            if jsTrim "1a2b3c4 first change\n5d6e7f8 second change" = ""
            then "- None"
            else String.intercalate "\n"
              ((jsLines (jsTrim "1a2b3c4 first change\n5d6e7f8 second change")).map
                (fun l => "- " ++ l)),
            "",
            "## Latest commit diffstat",
            "```",
            jsTrim "1a2b3c4 first change\n notes.txt | 2 +-\n",
            "```" ]),
         [probeInvocation "/repo", branchInvocation "/repo",
          logInvocation "/repo" 15, showInvocation "/repo"]) :=
  gitContext_payload_format envAllGood [("repoPath", .vStr "/repo")]
    ⟨"/repo", 15⟩ "main\n" "" "1a2b3c4 first change\n5d6e7f8 second change" ""
    "1a2b3c4 first change\n notes.txt | 2 +-\n" ""
    rfl (by decide) (by decide) (by decide) (by decide)

end McpHouseRules
